import Mathlib

/-!
# Verification of the Khathabook ledger core (src/Khathabook.py)

Shallow embedding of the credential store, ledger store, aggregation
engine and CSV export of the Khathabook expense tracker, together with
proofs of the specification's claims about them.

Modelling conventions:
* SQLite tables are embedded as Lean lists of row structures; an
  `AUTOINCREMENT` primary key is modelled by `length + 1` (there is no
  deletion path, so this matches SQLite's behavior on this workload).
* SQLite `REAL` amounts are modelled as exact rationals `ℚ`; the claims
  under verification concern the structure of the computations, not
  floating-point rounding.
* `pandas` dataframes are embedded as lists of rows; `groupby(k)[v].sum()`
  is embedded as the sorted list of distinct keys paired with the sum of
  the grouped column (pandas sorts group keys ascending by default).
* `hashlib.sha256(...).hexdigest()` is embedded as an injective
  deterministic tagging function; the claims depend only on the digest
  being a deterministic function of the password.
-/

/-- A row of the `users` table:
`users(id INTEGER PRIMARY KEY AUTOINCREMENT, username TEXT UNIQUE, password_hash TEXT)`. -/
structure UserRow where
  id : Nat
  username : String
  password_hash : String
deriving DecidableEq, Repr

/-- A row of the `transactions` table:
`transactions(id, user_id, date, category, description, type, amount)`.
`amount REAL` is modelled as `ℚ`. -/
structure Transaction where
  id : Nat
  user_id : Nat
  date : String
  category : String
  description : String
  type : String
  amount : ℚ
deriving DecidableEq, Repr

/-- A row of the edited dataframe produced by the `st.data_editor` widget
(line 111): columns `Category`, `Description`, `Type`, `Amount`. -/
structure EditedRow where
  Category : String
  Description : String
  «Type» : String
  Amount : ℚ
deriving DecidableEq, Repr

/-- An edited row after the save handler has assigned the `Date` column
(line 124 sets the same current timestamp, minute resolution, on every
row of the batch). -/
structure DatedRow where
  Date : String
  Category : String
  Description : String
  «Type» : String
  Amount : ℚ
deriving DecidableEq, Repr

/-- `hash_password` (line 37): `hashlib.sha256(password.encode()).hexdigest()`.
The SHA-256 digest is modelled as an injective deterministic encoding of
the password; the verified claims use only that the digest is a
deterministic function of the password. -/
def hash_password (password : String) : String :=
  "sha256:" ++ password

/-- `register_user` (lines 40-46): `INSERT INTO users (username, password_hash)
VALUES (?,?)` followed by `commit`, returning `True`; a
`sqlite3.IntegrityError` (raised by the `username UNIQUE` constraint
exactly when the username is already present, before any row is written)
is caught and `False` is returned with the table unchanged. -/
def register_user (users : List UserRow) (username password : String) :
    List UserRow × Bool :=
  if users.any (fun u => u.username == username) then
    (users, false)
  else
    (users ++ [⟨users.length + 1, username, hash_password password⟩], true)

/-- `login_user` (lines 48-50): `SELECT * FROM users WHERE username=? AND
password_hash=?` followed by `fetchone()`, i.e. the first row matching
both columns, or `None`. -/
def login_user (users : List UserRow) (username password : String) :
    Option UserRow :=
  users.find? (fun u =>
    u.username == username && u.password_hash == hash_password password)

/-- `get_transactions` (lines 52-54): `SELECT * FROM transactions WHERE
user_id=?`, i.e. all stored rows of that user in storage order. -/
def get_transactions (txns : List Transaction) (user_id : Nat) :
    List Transaction :=
  txns.filter (fun t => t.user_id == user_id)

/-- `add_transactions` (lines 56-61): row-by-row `INSERT INTO transactions
(user_id,date,category,description,type,amount)` over the dataframe,
each insert drawing the next `AUTOINCREMENT` id. -/
def add_transactions (txns : List Transaction) (user_id : Nat)
    (rows : List DatedRow) : List Transaction :=
  txns ++ rows.enum.map (fun p =>
    ⟨txns.length + 1 + p.1, user_id, p.2.Date, p.2.Category, p.2.Description,
      p.2.«Type», p.2.Amount⟩)

/-- The "Save Transactions" handler (lines 121-126):
`edited_df = edited_df[edited_df["Description"] != ""]`; if the filtered
frame is non-empty, the same current timestamp `now` is assigned to a new
`Date` column of every row and `add_transactions` is called; otherwise
nothing is stored. -/
def save_transactions (txns : List Transaction) (user_id : Nat)
    (now : String) (edited : List EditedRow) : List Transaction :=
  let filtered := edited.filter (fun r => r.Description != "")
  if filtered.isEmpty then txns
  else add_transactions txns user_id
    (filtered.map (fun r => ⟨now, r.Category, r.Description, r.«Type», r.Amount⟩))

/-- `df[df["type"]=="Income"]["amount"].sum()` (line 131). -/
def total_income (df : List Transaction) : ℚ :=
  ((df.filter (fun t => t.type == "Income")).map (fun t => t.amount)).sum

/-- `df[df["type"]=="Expense"]["amount"].sum()` (line 132). -/
def total_expense (df : List Transaction) : ℚ :=
  ((df.filter (fun t => t.type == "Expense")).map (fun t => t.amount)).sum

/-- `balance = income - expense` (line 133). -/
def balance (df : List Transaction) : ℚ :=
  total_income df - total_expense df

/-- Strict lexicographic order on character lists, comparing code points.
Embeds the order pandas uses on the stored date strings: on the fixed
zero-padded `"%Y-%m-%d %H:%M"` format, code-point order of the strings
coincides with chronological order of the parsed timestamps. -/
def chLt : List Char → List Char → Bool
  | _, [] => false
  | [], _ :: _ => true
  | a :: as, b :: bs =>
    a.toNat < b.toNat || (a.toNat == b.toNat && chLt as bs)

/-- Non-strict lexicographic order on strings (`a ≤ b` as `¬ b < a`). -/
def strLe (a b : String) : Bool :=
  !(chLt b.data a.data)

/-- Insert a key into a list sorted by `strLe`, keeping it sorted. -/
def insertKey (k : String) : List String → List String
  | [] => [k]
  | e :: es => if strLe k e then k :: e :: es else e :: insertKey k es

/-- Insertion sort by `strLe`; embeds the ascending key order that
`pandas.groupby` produces (its `sort=True` default). -/
def sortKeys : List String → List String
  | [] => []
  | k :: ks => insertKey k (sortKeys ks)

/-- `df.groupby(key)["amount"].sum()` over an embedded dataframe: the
distinct keys in ascending order, each paired with the sum of the
`amount` column of the rows having that key. -/
def groupBySum (key : Transaction → String) (df : List Transaction) :
    List (String × ℚ) :=
  (sortKeys ((df.map key).dedup)).map (fun k =>
    (k, ((df.filter (fun t => key t == k)).map (fun t => t.amount)).sum))

/-- `grouped = expense_df.groupby("category")["amount"].sum()`
(lines 156-158), the "Expenses by Category" view: expense rows grouped
by category. -/
def grouped (df : List Transaction) : List (String × ℚ) :=
  groupBySum (fun t => t.category)
    (df.filter (fun t => t.type == "Expense"))

/-- `daily_expense = df_sorted[df_sorted["type"]=="Expense"]
.groupby("date")["amount"].sum()` (lines 163-165). The `date` column is
first parsed with `pd.to_datetime`; since every stored date string has
the fixed minute-resolution format assigned at line 124, parsing is
injective and order-preserving, so grouping and sorting by the parsed
timestamps is embedded as grouping and sorting by the date strings
themselves. -/
def daily_expense (df : List Transaction) : List (String × ℚ) :=
  groupBySum (fun t => t.date)
    (df.filter (fun t => t.type == "Expense"))

/-- The calendar-day part of a stored `"%Y-%m-%d %H:%M"` date string:
its first ten characters, `"%Y-%m-%d"`. -/
def calendar_date (s : String) : String :=
  ⟨s.data.take 10⟩

/-- Modelled from the spec: `daily_expense_trend(txns) = mapping
calendar_date → sum(amount) restricted to kind=Expense, keys sorted
ascending by date` — the spec's day-granularity trend, for comparison
with the code's `daily_expense`, which groups by the full
minute-resolution timestamp. -/
def spec_daily_expense_trend (df : List Transaction) : List (String × ℚ) :=
  groupBySum (fun t => calendar_date t.date)
    (df.filter (fun t => t.type == "Expense"))

/-- The header row `pandas.DataFrame.to_csv(index=False)` emits for the
frame returned by `get_transactions`: `SELECT *` yields every column of
the `transactions` table, in table order. -/
def csv_header : String :=
  "id,user_id,date,category,description,type,amount"

/-- Minimal CSV quoting (`csv.QUOTE_MINIMAL`, pandas' default): a field
is quoted, with inner quotes doubled, exactly when it contains a comma,
a quote or a line break. -/
def csvField (s : String) : String :=
  if s.data.any (fun ch => ch == ',' || ch == '"' || ch == '\n' || ch == '\r')
  then "\"" ++ s.replace "\"" "\"\"" ++ "\""
  else s

/-- Rendering of a numeric CSV cell; stands in for pandas' formatting of
the `REAL` columns (the verified claims do not inspect the digits). -/
def csvNum (q : ℚ) : String :=
  toString q

/-- One CSV row of `df.to_csv(index=False)` for a transaction: all seven
stored columns, comma-separated. -/
def csv_row (t : Transaction) : String :=
  String.intercalate ","
    [toString t.id, toString t.user_id, csvField t.date, csvField t.category,
      csvField t.description, csvField t.type, csvNum t.amount]

/-- The lines of `df.to_csv(index=False)`: the header followed by one
row per transaction, in dataframe order. -/
def csv_lines (df : List Transaction) : List String :=
  csv_header :: df.map csv_row

/-- `df.to_csv(index=False)` (line 170): the lines joined with `"\n"`,
with a trailing newline. (`.encode("utf-8")` then yields the UTF-8 bytes
of this string.) -/
def to_csv (df : List Transaction) : String :=
  String.intercalate "\n" (csv_lines df) ++ "\n"

/-- The download path of the summary view (lines 129-130 and 169-178):
the CSV download button exists only under `if not df.empty` — with an
empty transaction list the page shows "No transactions yet" and offers
no file at all. -/
def csv_download (txns : List Transaction) (user_id : Nat) :
    Option String :=
  let df := get_transactions txns user_id
  if df.isEmpty then none else some (to_csv df)

/-! ## Helper lemmas about sorting and grouping -/

theorem insertKey_perm (k : String) : ∀ l : List String,
    List.Perm (insertKey k l) (k :: l)
  | [] => List.Perm.refl _
  | e :: es => by
    simp only [insertKey]
    split
    · exact List.Perm.refl _
    · exact ((insertKey_perm k es).cons e).trans (List.Perm.swap k e es)

theorem sortKeys_perm : ∀ l : List String, List.Perm (sortKeys l) l
  | [] => List.Perm.refl _
  | k :: ks => (insertKey_perm k (sortKeys ks)).trans ((sortKeys_perm ks).cons k)

theorem chLt_asymm : ∀ a b : List Char, chLt a b = true → chLt b a = false
  | _ :: _, [], h => by simp [chLt] at h
  | [], [], h => by simp [chLt] at h
  | [], _ :: _, _ => rfl
  | a :: as, b :: bs, h => by
    simp only [chLt, Bool.or_eq_true, Bool.and_eq_true, decide_eq_true_eq,
      beq_iff_eq] at h
    simp only [chLt, Bool.or_eq_false_iff, Bool.and_eq_false_iff,
      decide_eq_false_iff_not, beq_eq_false_iff_ne, ne_eq]
    rcases h with hlt | ⟨heq, hrec⟩
    · exact ⟨Nat.lt_asymm hlt, Or.inl (Nat.ne_of_gt hlt)⟩
    · exact ⟨by omega, Or.inr (chLt_asymm as bs hrec)⟩

theorem strLe_total (a b : String) : strLe a b = true ∨ strLe b a = true := by
  cases h : chLt b.data a.data with
  | true =>
    right
    simp only [strLe, chLt_asymm _ _ h, Bool.not_false]
  | false =>
    left
    simp only [strLe, h, Bool.not_false]

theorem strLe_of_not_strLe {a b : String} (h : ¬ strLe a b = true) :
    strLe b a = true := by
  rcases strLe_total a b with h1 | h1
  · exact absurd h1 h
  · exact h1

theorem chain_insertKey (k : String) : ∀ l : List String,
    List.Chain' (fun a b => strLe a b = true) l →
    List.Chain' (fun a b => strLe a b = true) (insertKey k l)
  | [], _ => List.chain'_singleton k
  | [e], _ => by
    by_cases hle : strLe k e = true
    · simp [insertKey, hle, List.chain'_cons]
    · simpa [insertKey, hle, List.chain'_cons] using strLe_of_not_strLe hle
  | e :: f :: fs, h => by
    rcases List.chain'_cons.mp h with ⟨hef, htail⟩
    have ih := chain_insertKey k (f :: fs) htail
    by_cases hke : strLe k e = true
    · simp only [insertKey, if_pos hke]
      exact List.chain'_cons.mpr ⟨hke, h⟩
    · simp only [insertKey, if_neg hke]
      by_cases hkf : strLe k f = true
      · simp only [insertKey, if_pos hkf] at ih ⊢
        exact List.chain'_cons.mpr ⟨strLe_of_not_strLe hke, ih⟩
      · simp only [insertKey, if_neg hkf] at ih ⊢
        exact List.chain'_cons.mpr ⟨hef, ih⟩

theorem sortKeys_chain : ∀ l : List String,
    List.Chain' (fun a b => strLe a b = true) (sortKeys l)
  | [] => List.chain'_nil
  | k :: ks => chain_insertKey k (sortKeys ks) (sortKeys_chain ks)

theorem sortKeys_nodup {l : List String} (h : l.Nodup) :
    (sortKeys l).Nodup :=
  (sortKeys_perm l).nodup_iff.mpr h

theorem mem_sortKeys {l : List String} {k : String} :
    k ∈ sortKeys l ↔ k ∈ l :=
  (sortKeys_perm l).mem_iff

theorem sum_ite_eq_zero_of_not_mem {c : String} {a : ℚ} :
    ∀ {ks : List String}, c ∉ ks →
      (ks.map (fun k => if c = k then a else 0)).sum = 0
  | [], _ => rfl
  | k :: ks, h => by
    have hck : ¬ c = k := fun hc => h (hc ▸ List.mem_cons_self c ks)
    have hcs : c ∉ ks := fun hc => h (List.mem_cons_of_mem k hc)
    simp [hck, sum_ite_eq_zero_of_not_mem hcs]

theorem sum_ite_eq_of_mem {c : String} {a : ℚ} :
    ∀ {ks : List String}, ks.Nodup → c ∈ ks →
      (ks.map (fun k => if c = k then a else 0)).sum = a
  | [], _, hm => absurd hm (List.not_mem_nil c)
  | k :: ks, hn, hm => by
    rcases List.nodup_cons.mp hn with ⟨hk, hns⟩
    by_cases hck : c = k
    · subst hck
      simp [sum_ite_eq_zero_of_not_mem hk]
    · have hcs : c ∈ ks := (List.mem_cons.mp hm).resolve_left hck
      simp [hck, sum_ite_eq_of_mem hns hcs]

theorem group_filter_sum_cons (key : Transaction → String)
    (t : Transaction) (df : List Transaction) (k : String) :
    (((t :: df).filter (fun s => key s == k)).map (fun s => s.amount)).sum
      = (if key t = k then t.amount else 0)
        + ((df.filter (fun s => key s == k)).map (fun s => s.amount)).sum := by
  rw [List.filter_cons]
  by_cases h : key t = k
  · simp [h]
  · simp [h]

/-- Summing the per-key group sums over a duplicate-free list of keys
that covers every row recovers the total of the `amount` column. -/
theorem sum_groups_eq_sum (key : Transaction → String) :
    ∀ (df : List Transaction) (ks : List String), ks.Nodup →
      (∀ t ∈ df, key t ∈ ks) →
      (ks.map (fun k =>
        ((df.filter (fun s => key s == k)).map (fun s => s.amount)).sum)).sum
        = (df.map (fun t => t.amount)).sum
  | [], ks, _, _ => by simp
  | t :: df, ks, hn, hc => by
    have hcov : ∀ s ∈ df, key s ∈ ks :=
      fun s hs => hc s (List.mem_cons_of_mem t hs)
    have ih := sum_groups_eq_sum key df ks hn hcov
    calc (ks.map (fun k =>
          (((t :: df).filter (fun s => key s == k)).map (fun s => s.amount)).sum)).sum
        = (ks.map (fun k => (if key t = k then t.amount else 0)
            + ((df.filter (fun s => key s == k)).map (fun s => s.amount)).sum)).sum := by
          simp only [group_filter_sum_cons]
      _ = (ks.map (fun k => if key t = k then t.amount else 0)).sum
            + (ks.map (fun k =>
                ((df.filter (fun s => key s == k)).map (fun s => s.amount)).sum)).sum := by
          rw [← List.sum_map_add]
      _ = t.amount + (df.map (fun t => t.amount)).sum := by
          rw [sum_ite_eq_of_mem hn (hc t (List.mem_cons_self t df)), ih]
      _ = ((t :: df).map (fun t => t.amount)).sum := by simp

/-- The values of `groupBySum` add up to the total of the `amount`
column of the grouped dataframe. -/
theorem groupBySum_values_sum (key : Transaction → String)
    (df : List Transaction) :
    ((groupBySum key df).map Prod.snd).sum = (df.map (fun t => t.amount)).sum := by
  unfold groupBySum
  rw [List.map_map]
  exact sum_groups_eq_sum key df _
    (sortKeys_nodup (List.nodup_dedup _))
    (fun t ht => mem_sortKeys.mpr (List.mem_dedup.mpr (List.mem_map_of_mem key ht)))

/-- Shape of an entry of `groupBySum`: its key is a key of some grouped
row and its value is the group's amount sum. -/
theorem mem_groupBySum (key : Transaction → String)
    {df : List Transaction} {p : String × ℚ} (hp : p ∈ groupBySum key df) :
    (∃ t ∈ df, key t = p.1) ∧
      p.2 = ((df.filter (fun s => key s == p.1)).map (fun s => s.amount)).sum := by
  rcases List.mem_map.mp hp with ⟨k, hk, hpk⟩
  subst hpk
  have hk' : k ∈ df.map key := List.mem_dedup.mp (mem_sortKeys.mp hk)
  rcases List.mem_map.mp hk' with ⟨t, ht, hkt⟩
  exact ⟨⟨t, ht, hkt⟩, rfl⟩

/-- Every grouped row's key appears among the keys of `groupBySum`. -/
theorem groupBySum_complete (key : Transaction → String)
    {df : List Transaction} {t : Transaction} (ht : t ∈ df) :
    ∃ p ∈ groupBySum key df, p.1 = key t := by
  refine ⟨(key t, ((df.filter (fun s => key s == key t)).map (fun s => s.amount)).sum),
    ?_, rfl⟩
  exact List.mem_map_of_mem _
    (mem_sortKeys.mpr (List.mem_dedup.mpr (List.mem_map_of_mem key ht)))

theorem map_fst_map_pair {α β : Type} (f : α → β) :
    ∀ l : List α, (l.map (fun k => (k, f k))).map Prod.fst = l
  | [] => rfl
  | a :: l => by simp [map_fst_map_pair f l]

/-- The keys of `groupBySum` are the sorted distinct keys of the rows. -/
theorem groupBySum_keys (key : Transaction → String)
    (df : List Transaction) :
    (groupBySum key df).map Prod.fst = sortKeys ((df.map key).dedup) :=
  map_fst_map_pair _ _

/-- The keys of `groupBySum` are in ascending order. -/
theorem groupBySum_keys_chain (key : Transaction → String)
    (df : List Transaction) :
    List.Chain' (fun a b => strLe a b = true)
      ((groupBySum key df).map Prod.fst) := by
  rw [groupBySum_keys]
  exact sortKeys_chain _

/-! ## Claims -/

/-- C1: For every sequence of transactions, the computed balance equals
total income minus total expense exactly, where total income is the sum
of amounts of transactions with kind `Income` and total expense is the
sum of amounts of transactions with kind `Expense`. -/
theorem C1_balance_is_income_minus_expense (df : List Transaction) :
    total_income df - total_expense df = balance df ∧
    total_income df
      = ((df.filter (fun t => t.type == "Income")).map (fun t => t.amount)).sum ∧
    total_expense df
      = ((df.filter (fun t => t.type == "Expense")).map (fun t => t.amount)).sum :=
  ⟨rfl, rfl, rfl⟩

/-- C2: For every sequence of transactions, the by-category view
(`grouped`) draws only on `Expense`-kind transactions — every entry's
key comes from an expense row and its value is the sum of amounts of the
expense rows of that category — and the sum of all its values equals
`total_expense` of the same sequence. -/
theorem C2_by_category_expenses_only_and_sums_to_total (df : List Transaction) :
    (∀ p ∈ grouped df,
      (∃ t ∈ df, t.type = "Expense" ∧ t.category = p.1) ∧
      p.2 = (((df.filter (fun t => t.type == "Expense")).filter
          (fun t => t.category == p.1)).map (fun t => t.amount)).sum) ∧
    ((grouped df).map Prod.snd).sum = total_expense df := by
  constructor
  · intro p hp
    rcases mem_groupBySum (fun t => t.category) hp with ⟨⟨t, ht, hcat⟩, hval⟩
    rcases List.mem_filter.mp ht with ⟨htdf, htype⟩
    exact ⟨⟨t, htdf, by simpa using htype, hcat⟩, hval⟩
  · exact groupBySum_values_sum _ _

/-- Witness for C2 on the spec's worked scenario: one `Food` expense of
`150` and one `Salary` income of `5000`. -/
theorem C2_witness :
    (∀ p ∈ grouped
        [⟨1, 1, "2025-01-01 09:00", "Food", "lunch", "Expense", 150⟩,
         ⟨2, 1, "2025-01-01 09:00", "Salary", "pay", "Income", 5000⟩],
      (∃ t ∈ ([⟨1, 1, "2025-01-01 09:00", "Food", "lunch", "Expense", 150⟩,
         ⟨2, 1, "2025-01-01 09:00", "Salary", "pay", "Income", 5000⟩] :
            List Transaction), t.type = "Expense" ∧ t.category = p.1) ∧
      p.2 = (((([⟨1, 1, "2025-01-01 09:00", "Food", "lunch", "Expense", 150⟩,
         ⟨2, 1, "2025-01-01 09:00", "Salary", "pay", "Income", 5000⟩] :
            List Transaction).filter (fun t => t.type == "Expense")).filter
          (fun t => t.category == p.1)).map (fun t => t.amount)).sum) ∧
    ((grouped
        [⟨1, 1, "2025-01-01 09:00", "Food", "lunch", "Expense", 150⟩,
         ⟨2, 1, "2025-01-01 09:00", "Salary", "pay", "Income", 5000⟩]).map
      Prod.snd).sum
      = total_expense
        [⟨1, 1, "2025-01-01 09:00", "Food", "lunch", "Expense", 150⟩,
         ⟨2, 1, "2025-01-01 09:00", "Salary", "pay", "Income", 5000⟩] :=
  C2_by_category_expenses_only_and_sums_to_total _

/-- C3: For every `(username, password)` pair whose username is not
already registered, `register_user` succeeds, and a subsequent
`login_user` with the same username and password returns that user's
identity rather than absence. -/
theorem C3_register_then_authenticate (users : List UserRow)
    (username password : String)
    (h : ∀ u ∈ users, u.username ≠ username) :
    (register_user users username password).2 = true ∧
    ∃ r, login_user (register_user users username password).1
        username password = some r ∧ r.username = username := by
  have hany : users.any (fun u => u.username == username) = false :=
    List.any_eq_false.mpr (fun u hu => by simpa using h u hu)
  have hreg : register_user users username password
      = (users ++ [⟨users.length + 1, username, hash_password password⟩], true) := by
    unfold register_user
    rw [hany]
    rfl
  rw [hreg]
  refine ⟨rfl, ⟨users.length + 1, username, hash_password password⟩, ?_, rfl⟩
  unfold login_user
  rw [List.find?_append]
  have hnone : users.find? (fun u =>
      u.username == username && u.password_hash == hash_password password) = none :=
    List.find?_eq_none.mpr (fun u hu => by simp [h u hu])
  rw [hnone]
  simp [List.find?]

/-- Witness for C3: registering `alice` in an empty credential store and
logging back in. -/
theorem C3_witness :
    (∀ u ∈ ([] : List UserRow), u.username ≠ "alice") ∧
    ((register_user [] "alice" "pw").2 = true ∧
      ∃ r, login_user (register_user [] "alice" "pw").1 "alice" "pw"
          = some r ∧ r.username = "alice") :=
  ⟨by simp, C3_register_then_authenticate [] "alice" "pw" (by simp)⟩

/-- C4: For every username and every pair of passwords `p1`, `p2` (equal
or not), if `register_user(username, p1)` has succeeded then a second
call `register_user(username, p2)` fails with the duplicate-username
failure (`False` from the caught `IntegrityError`), regardless of `p2`. -/
theorem C4_second_register_fails (users : List UserRow)
    (username p1 p2 : String)
    (h : (register_user users username p1).2 = true) :
    (register_user (register_user users username p1).1 username p2).2 = false := by
  unfold register_user at h ⊢
  by_cases hany : users.any (fun u => u.username == username) = true
  · rw [hany] at h
    simp at h
  · rw [Bool.not_eq_true] at hany
    rw [hany]
    simp only [Bool.false_eq_true, if_false, List.any_append]
    simp [hany]

/-- Witness for C4: registering `alice` twice, with different
passwords. -/
theorem C4_witness :
    (register_user [] "alice" "p1").2 = true ∧
    (register_user (register_user [] "alice" "p1").1 "alice" "p2").2 = false :=
  ⟨by decide, C4_second_register_fails [] "alice" "p1" "p2" (by decide)⟩

/-- C10: `register_user` is atomic on failure: for every username
already present in the credential store, a failing registration returns
`False` and leaves the `users` table completely unchanged — no row
added, no existing row modified. -/
theorem C10_failed_register_is_atomic (users : List UserRow)
    (username password : String)
    (h : users.any (fun u => u.username == username) = true) :
    register_user users username password = (users, false) := by
  unfold register_user
  rw [h]
  rfl

/-- Witness for C10: re-registering `alice` over a store that already
holds her row leaves the store exactly as it was. -/
theorem C10_witness :
    ([(⟨1, "alice", "sha256:p1"⟩ : UserRow)].any
        (fun u => u.username == "alice") = true) ∧
    register_user [⟨1, "alice", "sha256:p1"⟩] "alice" "p2"
      = ([⟨1, "alice", "sha256:p1"⟩], false) :=
  ⟨by decide, C10_failed_register_is_atomic [⟨1, "alice", "sha256:p1"⟩]
    "alice" "p2" (by decide)⟩

/-- C5 counterexample: two `Expense` rows stored on the same calendar
day at different minutes yield two distinct trend keys, both with the
same calendar date, so the chart's index is not day-granular and the
code's trend differs from the spec's day-granularity trend. -/
theorem C5_counterexample :
    (daily_expense
        [⟨1, 1, "2025-01-01 09:00", "Food", "a", "Expense", 1⟩,
         ⟨2, 1, "2025-01-01 10:00", "Food", "b", "Expense", 2⟩]).map Prod.fst
      = ["2025-01-01 09:00", "2025-01-01 10:00"] ∧
    calendar_date "2025-01-01 09:00" = calendar_date "2025-01-01 10:00" ∧
    daily_expense
        [⟨1, 1, "2025-01-01 09:00", "Food", "a", "Expense", 1⟩,
         ⟨2, 1, "2025-01-01 10:00", "Food", "b", "Expense", 2⟩]
      ≠ spec_daily_expense_trend
        [⟨1, 1, "2025-01-01 09:00", "Food", "a", "Expense", 1⟩,
         ⟨2, 1, "2025-01-01 10:00", "Food", "b", "Expense", 2⟩] :=
  ⟨by decide, by decide, by decide⟩

/-- C5 (amended): the expense trend is a mapping from the stored
timestamp — minute resolution, not calendar-day granularity — to the sum
of amounts of `Expense`-kind transactions carrying exactly that
timestamp; its keys are exactly the expense timestamps, sorted
ascending. -/
theorem C5_trend_is_keyed_by_minute_timestamp (df : List Transaction) :
    (∀ p ∈ daily_expense df,
      (∃ t ∈ df, t.type = "Expense" ∧ t.date = p.1) ∧
      p.2 = (((df.filter (fun t => t.type == "Expense")).filter
          (fun t => t.date == p.1)).map (fun t => t.amount)).sum) ∧
    (∀ t ∈ df, t.type = "Expense" →
      ∃ p ∈ daily_expense df, p.1 = t.date) ∧
    List.Chain' (fun a b => strLe a b = true)
      ((daily_expense df).map Prod.fst) := by
  refine ⟨?_, ?_, groupBySum_keys_chain _ _⟩
  · intro p hp
    rcases mem_groupBySum (fun t => t.date) hp with ⟨⟨t, ht, hdate⟩, hval⟩
    rcases List.mem_filter.mp ht with ⟨htdf, htype⟩
    exact ⟨⟨t, htdf, by simpa using htype, hdate⟩, hval⟩
  · intro t ht htype
    exact groupBySum_complete (fun t => t.date)
      (List.mem_filter.mpr ⟨ht, by simp [htype]⟩)

/-- Witness for the amended C5 at the counterexample input. -/
theorem C5_witness :
    (∀ p ∈ daily_expense
        [⟨1, 1, "2025-01-01 09:00", "Food", "a", "Expense", 1⟩,
         ⟨2, 1, "2025-01-01 10:00", "Food", "b", "Expense", 2⟩],
      (∃ t ∈ ([⟨1, 1, "2025-01-01 09:00", "Food", "a", "Expense", 1⟩,
         ⟨2, 1, "2025-01-01 10:00", "Food", "b", "Expense", 2⟩] :
            List Transaction), t.type = "Expense" ∧ t.date = p.1) ∧
      p.2 = (((([⟨1, 1, "2025-01-01 09:00", "Food", "a", "Expense", 1⟩,
         ⟨2, 1, "2025-01-01 10:00", "Food", "b", "Expense", 2⟩] :
            List Transaction).filter (fun t => t.type == "Expense")).filter
          (fun t => t.date == p.1)).map (fun t => t.amount)).sum) ∧
    (∀ t ∈ ([⟨1, 1, "2025-01-01 09:00", "Food", "a", "Expense", 1⟩,
         ⟨2, 1, "2025-01-01 10:00", "Food", "b", "Expense", 2⟩] :
            List Transaction), t.type = "Expense" →
      ∃ p ∈ daily_expense
        [⟨1, 1, "2025-01-01 09:00", "Food", "a", "Expense", 1⟩,
         ⟨2, 1, "2025-01-01 10:00", "Food", "b", "Expense", 2⟩], p.1 = t.date) ∧
    List.Chain' (fun a b => strLe a b = true)
      ((daily_expense
        [⟨1, 1, "2025-01-01 09:00", "Food", "a", "Expense", 1⟩,
         ⟨2, 1, "2025-01-01 10:00", "Food", "b", "Expense", 2⟩]).map Prod.fst) :=
  C5_trend_is_keyed_by_minute_timestamp _

/-- C6 counterexample: the export of a one-transaction list opens with
the full seven-column header `id,user_id,date,category,description,type,amount`
(the query is `SELECT *`), not the five-column header the claim states;
and with zero transactions no CSV artifact is offered at all (the
download button exists only inside `if not df.empty`). -/
theorem C6_counterexample :
    (csv_lines [⟨1, 1, "2025-01-01 09:00", "Food", "lunch", "Expense", 150⟩]).head?
      = some csv_header ∧
    csv_header ≠ "date,category,description,type,amount" ∧
    csv_download [] 1 = none :=
  ⟨rfl, by decide, rfl⟩

/-- C6 (amended): the CSV download is offered only when the current
user's transaction list is non-empty, in which case its text is the
lines of `csv_lines` joined by newlines: a first line holding the header
`id,user_id,date,category,description,type,amount` — all seven stored
columns — followed by exactly one row per transaction; with zero
transactions no file is produced. -/
theorem C6_export_header_and_rows (txns : List Transaction) (u : Nat) :
    (get_transactions txns u = [] → csv_download txns u = none) ∧
    (get_transactions txns u ≠ [] →
      csv_download txns u = some (to_csv (get_transactions txns u)) ∧
      (csv_lines (get_transactions txns u)).head?
        = some "id,user_id,date,category,description,type,amount" ∧
      (csv_lines (get_transactions txns u)).length
        = (get_transactions txns u).length + 1) := by
  constructor
  · intro h
    unfold csv_download
    rw [h]
    rfl
  · intro h
    refine ⟨?_, rfl, by simp [csv_lines]⟩
    unfold csv_download
    rw [if_neg (by simpa [List.isEmpty_iff] using h)]

/-- Witness for the amended C6: one stored transaction for user 1, and
separately the empty store. -/
theorem C6_witness :
    get_transactions [⟨1, 1, "2025-01-01 09:00", "Food", "lunch", "Expense", 150⟩] 1
        ≠ [] ∧
    (csv_download [⟨1, 1, "2025-01-01 09:00", "Food", "lunch", "Expense", 150⟩] 1
        = some (to_csv (get_transactions
            [⟨1, 1, "2025-01-01 09:00", "Food", "lunch", "Expense", 150⟩] 1)) ∧
      (csv_lines (get_transactions
            [⟨1, 1, "2025-01-01 09:00", "Food", "lunch", "Expense", 150⟩] 1)).head?
        = some "id,user_id,date,category,description,type,amount" ∧
      (csv_lines (get_transactions
            [⟨1, 1, "2025-01-01 09:00", "Food", "lunch", "Expense", 150⟩] 1)).length
        = (get_transactions
            [⟨1, 1, "2025-01-01 09:00", "Food", "lunch", "Expense", 150⟩] 1).length
          + 1) :=
  ⟨by decide,
    (C6_export_header_and_rows
      [⟨1, 1, "2025-01-01 09:00", "Food", "lunch", "Expense", 150⟩] 1).2
      (by decide)⟩

/-- C7: For every pair of distinct users `u` and `v`, `get_transactions`
returns only transactions whose `user_id` is `u`, and appending a batch
of transactions for `v` leaves the result of `get_transactions` for `u`
unchanged — no cross-user visibility. -/
theorem C7_no_cross_user_visibility (txns : List Transaction)
    (rows : List DatedRow) (u v : Nat) (h : u ≠ v) :
    (∀ t ∈ get_transactions txns u, t.user_id = u) ∧
    get_transactions (add_transactions txns v rows) u
      = get_transactions txns u := by
  constructor
  · intro t ht
    simpa using (List.mem_filter.mp ht).2
  · unfold get_transactions add_transactions
    rw [List.filter_append]
    have hnil : (rows.enum.map (fun p =>
        (⟨txns.length + 1 + p.1, v, p.2.Date, p.2.Category, p.2.Description,
          p.2.«Type», p.2.Amount⟩ : Transaction))).filter
          (fun t => t.user_id == u) = [] := by
      rw [List.filter_eq_nil_iff]
      intro a ha
      rcases List.mem_map.mp ha with ⟨p, _, rfl⟩
      simp [Ne.symm h]
    rw [hnil, List.append_nil]

/-- Witness for C7: user 2's batch does not change user 1's view. -/
theorem C7_witness :
    (1 : Nat) ≠ 2 ∧
    ((∀ t ∈ get_transactions [⟨1, 1, "d", "Food", "x", "Expense", 3⟩] 1,
        t.user_id = 1) ∧
      get_transactions
          (add_transactions [⟨1, 1, "d", "Food", "x", "Expense", 3⟩] 2
            [⟨"e", "Travel", "y", "Expense", 4⟩]) 1
        = get_transactions [⟨1, 1, "d", "Food", "x", "Expense", 3⟩] 1) :=
  ⟨by decide,
    C7_no_cross_user_visibility [⟨1, 1, "d", "Food", "x", "Expense", 3⟩]
      [⟨"e", "Travel", "y", "Expense", 4⟩] 1 2 (by decide)⟩

/-- Column-wise view of what a save stores: projecting any column `f` of
the rows the save appended equals projecting the matching editor column
`g` of the edited rows that survived the empty-description filter. -/
theorem save_transactions_drop_map {α : Type} (txns : List Transaction)
    (u : Nat) (now : String) (edited : List EditedRow)
    (f : Transaction → α) (g : EditedRow → α)
    (hfg : ∀ (i : Nat) (r : EditedRow),
      f ⟨i, u, now, r.Category, r.Description, r.«Type», r.Amount⟩ = g r) :
    ((save_transactions txns u now edited).drop txns.length).map f
      = (edited.filter (fun r => r.Description != "")).map g := by
  simp only [save_transactions]
  cases hEmp : (edited.filter (fun r => r.Description != "")).isEmpty with
  | true =>
    rw [if_pos rfl, List.drop_length, List.isEmpty_iff.mp hEmp]
    rfl
  | false =>
    rw [if_neg (by simp [hEmp])]
    unfold add_transactions
    rw [List.drop_left, List.map_map, List.enum_map, List.map_map]
    have hpt : ∀ p ∈ (edited.filter (fun r => r.Description != "")).enum,
        ((f ∘ fun p : Nat × DatedRow =>
            (⟨txns.length + 1 + p.1, u, p.2.Date, p.2.Category, p.2.Description,
              p.2.«Type», p.2.Amount⟩ : Transaction))
          ∘ Prod.map id (fun r : EditedRow =>
            (⟨now, r.Category, r.Description, r.«Type», r.Amount⟩ : DatedRow))) p
          = (g ∘ Prod.snd) p :=
      fun p _ => hfg (txns.length + 1 + p.1) p.2
    rw [List.map_congr_left hpt, ← List.map_map, List.enum_map_snd]

/-- C8 counterexample: a batch holding one `Expense` row with a
non-empty description and amount `-5` passes the save filter unchanged,
so a transaction with a negative amount is persisted to the ledger. -/
theorem C8_counterexample :
    ∃ t ∈ save_transactions [] 1 "2025-01-01 00:00"
        [⟨"Food", "groceries", "Expense", -5⟩], t.amount < 0 := by
  decide

/-- C8 (amended): the transaction-entry save path validates nothing
about amounts — the persisted rows' amounts are exactly the `Amount`
cells of the edited rows that survive the empty-description filter,
whatever their sign, so negative amounts are stored as entered. -/
theorem C8_amounts_stored_verbatim (txns : List Transaction)
    (u : Nat) (now : String) (edited : List EditedRow) :
    ((save_transactions txns u now edited).drop txns.length).map
        (fun t => t.amount)
      = (edited.filter (fun r => r.Description != "")).map (fun r => r.Amount) :=
  save_transactions_drop_map txns u now edited _ _ (fun _ _ => rfl)

/-- Witness for the amended C8 at the counterexample input: the stored
amount column is exactly `[-5]`. -/
theorem C8_witness :
    ((save_transactions [] 1 "2025-01-01 00:00"
        [⟨"Food", "groceries", "Expense", -5⟩]).drop
          ([] : List Transaction).length).map (fun t => t.amount)
      = (([⟨"Food", "groceries", "Expense", -5⟩] : List EditedRow).filter
          (fun r => r.Description != "")).map (fun r => r.Amount) :=
  C8_amounts_stored_verbatim [] 1 "2025-01-01 00:00"
    [⟨"Food", "groceries", "Expense", -5⟩]

/-- C9: the producer-side save filter removes only rows whose
description is exactly the empty string — the stored description column
equals the edited `Description` column restricted to rows with
`Description != ""` — and in particular a row whose description is a
single space is not filtered out and is stored in the ledger. -/
theorem C9_filter_removes_only_exactly_empty (txns : List Transaction)
    (u : Nat) (now : String) (edited : List EditedRow) :
    ((save_transactions txns u now edited).drop txns.length).map
        (fun t => t.description)
      = (edited.filter (fun r => r.Description != "")).map
          (fun r => r.Description) ∧
    ∀ r ∈ edited, r.Description = " " →
      ∃ t ∈ save_transactions txns u now edited, t.description = " " := by
  have hmain := save_transactions_drop_map txns u now edited
    (fun t => t.description) (fun r => r.Description) (fun _ _ => rfl)
  refine ⟨hmain, ?_⟩
  intro r hr hdesc
  have hrf : r ∈ edited.filter (fun r => r.Description != "") :=
    List.mem_filter.mpr ⟨hr, by rw [hdesc]; rfl⟩
  have hmem : (" " : String) ∈ (edited.filter
      (fun r => r.Description != "")).map (fun r => r.Description) := by
    rw [← hdesc]
    exact List.mem_map_of_mem _ hrf
  rw [← hmain] at hmem
  rcases List.mem_map.mp hmem with ⟨t, ht, hts⟩
  exact ⟨t, List.mem_of_mem_drop ht, hts⟩

/-- Witness for C9: a batch holding one row whose description is a
single space; the row is stored. -/
theorem C9_witness :
    ((save_transactions [] 1 "2025-01-01 00:00"
        [⟨"Food", " ", "Expense", 7⟩]).drop ([] : List Transaction).length).map
        (fun t => t.description)
      = (([⟨"Food", " ", "Expense", 7⟩] : List EditedRow).filter
          (fun r => r.Description != "")).map (fun r => r.Description) ∧
    ∀ r ∈ ([⟨"Food", " ", "Expense", 7⟩] : List EditedRow),
      r.Description = " " →
      ∃ t ∈ save_transactions [] 1 "2025-01-01 00:00"
          [⟨"Food", " ", "Expense", 7⟩], t.description = " " :=
  C9_filter_removes_only_exactly_empty [] 1 "2025-01-01 00:00"
    [⟨"Food", " ", "Expense", 7⟩]
